import Mathlib

/-!
Shallow embedding of `src/aws/resource_aws_codecommit_repository.go`
(the CodeCommit repository resource of a Terraform provider).

The remote CodeCommit client is modelled as an oracle (`Conn`) assigning to
every request either an AWS error or a response.  The Terraform
`schema.ResourceData` store is modelled by the record `ResourceData`; the Go
handlers mutate it in place, here they pass it explicitly.  Each handler
returns a `HandlerResult`: the returned Go `error` (as `Option String`, with
the exact wrapped message), the final state, and the ordered trace of remote
calls it performed.  `GetOk` on a string attribute is true exactly when the
stored value is non-empty (the Go zero value for strings), and
`HasChange`/`IsNewResource` are host-provided facts carried as fields of the
state.  `d.Set` on a schema key never fails in this model (the Go error
branch for `d.Set("tags", ...)` is unreachable for a valid schema key).
-/

/-- An AWS service error: the error code inspected by `isAWSErr` plus the
message text; `render` is its Go `Error()` string used by `%s` formatting. -/
structure AwsErr where
  code : String
  message : String
deriving Repr, DecidableEq

def AwsErr.render (e : AwsErr) : String :=
  e.code ++ ": " ++ e.message

/-- Go `strings.Contains`: true iff `needle` is empty or occurs in `hay`
(`String.splitOn` yields more than one part exactly on an occurrence). -/
def strContains (hay needle : String) : Bool :=
  needle.isEmpty || (hay.splitOn needle).length != 1

/-- Modelled from the spec: the `isAWSErr` helper (defined outside this file)
matches an error against an AWS error code and a message substring; every use
in this file passes the empty substring, so only the code matters. -/
def isAWSErr (e : AwsErr) (code message : String) : Bool :=
  e.code == code && strContains e.message message

def ErrCodeRepositoryDoesNotExistException : String :=
  "RepositoryDoesNotExistException"

/-- A CodeCommit tag (service wire form). -/
structure Tag where
  key : String
  value : String
deriving Repr, DecidableEq

/-- Modelled from the spec: tag-map conversion helper (defined outside this
file) turning the configuration tag map into the service tag list. -/
def tagsFromMapCodeCommit (m : List (String × String)) : List Tag :=
  m.map fun p => ⟨p.1, p.2⟩

/-- Modelled from the spec: tag-map conversion helper (defined outside this
file) turning the service tag list back into a configuration tag map. -/
def tagsToMapCodeCommit (l : List Tag) : List (String × String) :=
  l.map fun t => (t.key, t.value)

/-- The repository metadata returned by create-repository and get-repository.
The string fields are `*string` in the SDK and dereferenced on `d.Set`; the
default branch is explicitly nil-checked by the code, hence an `Option`. -/
structure RepositoryMetadata where
  repositoryId : String
  arn : String
  cloneUrlHttp : String
  cloneUrlSsh : String
  repositoryDescription : String
  repositoryName : String
  defaultBranch : Option String
deriving Repr, DecidableEq

structure CreateRepositoryInput where
  repositoryName : String
  repositoryDescription : String
  tags : List Tag
deriving Repr, DecidableEq

structure CreateRepositoryOutput where
  repositoryMetadata : RepositoryMetadata
deriving Repr, DecidableEq

structure GetRepositoryInput where
  repositoryName : String
deriving Repr, DecidableEq

structure GetRepositoryOutput where
  repositoryMetadata : RepositoryMetadata
deriving Repr, DecidableEq

structure DeleteRepositoryInput where
  repositoryName : String
deriving Repr, DecidableEq

structure UpdateRepositoryDescriptionInput where
  repositoryName : String
  repositoryDescription : String
deriving Repr, DecidableEq

structure UpdateDefaultBranchInput where
  repositoryName : String
  defaultBranchName : String
deriving Repr, DecidableEq

structure ListBranchesInput where
  repositoryName : String
deriving Repr, DecidableEq

structure ListBranchesOutput where
  branches : List String
deriving Repr, DecidableEq

structure ListTagsForResourceInput where
  resourceArn : String
deriving Repr, DecidableEq

structure ListTagsForResourceOutput where
  tags : List Tag
deriving Repr, DecidableEq

/-- The slice of the Terraform `ResourceData` state that this resource reads
and writes, plus the host-provided facts the handlers query (`HasChange` on
the two updatable attributes, `IsNewResource`). -/
structure ResourceData where
  id : String
  repository_name : String
  description : String
  arn : String
  repository_id : String
  clone_url_http : String
  clone_url_ssh : String
  default_branch : String
  tags : List (String × String)
  isNewResource : Bool
  hasChangeDefaultBranch : Bool
  hasChangeDescription : Bool
deriving Repr, DecidableEq

/-- The remote CodeCommit connection, as an oracle from requests to
responses.  `setTagsCodeCommit` is modelled from the spec: the external
tag-reconciliation helper (defined outside this file) receives the resource
identifier and its configured tag map and either succeeds or fails with an
AWS error. -/
structure Conn where
  createRepository : CreateRepositoryInput → Except AwsErr CreateRepositoryOutput
  getRepository : GetRepositoryInput → Except AwsErr GetRepositoryOutput
  deleteRepository : DeleteRepositoryInput → Except AwsErr Unit
  updateRepositoryDescription : UpdateRepositoryDescriptionInput → Except AwsErr Unit
  updateDefaultBranch : UpdateDefaultBranchInput → Except AwsErr Unit
  listBranches : ListBranchesInput → Except AwsErr ListBranchesOutput
  listTagsForResource : ListTagsForResourceInput → Except AwsErr ListTagsForResourceOutput
  setTagsCodeCommit : String → List (String × String) → Except AwsErr Unit

/-- One remote call, recorded in the order the handler issued it. -/
inductive RemoteCall where
  | createRepository (i : CreateRepositoryInput)
  | getRepository (i : GetRepositoryInput)
  | deleteRepository (i : DeleteRepositoryInput)
  | updateRepositoryDescription (i : UpdateRepositoryDescriptionInput)
  | updateDefaultBranch (i : UpdateDefaultBranchInput)
  | listBranches (i : ListBranchesInput)
  | listTagsForResource (i : ListTagsForResourceInput)
  | setTagsHelper (id : String) (tags : List (String × String))
deriving Repr, DecidableEq

def RemoteCall.isUpdateDefaultBranch : RemoteCall → Bool
  | .updateDefaultBranch _ => true
  | _ => false

def RemoteCall.isSetTagsHelper : RemoteCall → Bool
  | .setTagsHelper _ _ => true
  | _ => false

/-- What a Go handler leaves behind: the returned error (with its exact
message), the final state, and the trace of remote calls performed. -/
structure HandlerResult where
  err : Option String
  d : ResourceData
  calls : List RemoteCall
deriving Repr, DecidableEq

/-- The `codecommit.CreateRepositoryInput` built from configuration at the
top of the Create handler. -/
def createInput (d : ResourceData) : CreateRepositoryInput :=
  { repositoryName := d.repository_name
    repositoryDescription := d.description
    tags := tagsFromMapCodeCommit d.tags }

/-- The `d.SetId` and four `d.Set` statements the Create handler performs on
a successful create-repository response. -/
def postCreateState (d : ResourceData) (out : CreateRepositoryOutput) : ResourceData :=
  { d with
    id := d.repository_name
    repository_id := out.repositoryMetadata.repositoryId
    arn := out.repositoryMetadata.arn
    clone_url_http := out.repositoryMetadata.cloneUrlHttp
    clone_url_ssh := out.repositoryMetadata.cloneUrlSsh }

/-- `resourceAwsCodeCommitUpdateDescription`: update the remote description,
wrapping a failure. -/
def resourceAwsCodeCommitUpdateDescription (conn : Conn) (d : ResourceData) :
    Option String × List RemoteCall :=
  let branchInput : UpdateRepositoryDescriptionInput :=
    { repositoryName := d.id, repositoryDescription := d.description }
  match conn.updateRepositoryDescription branchInput with
  | .error err =>
      (some ("Error Updating Repository Description for CodeCommit Repository: "
          ++ err.render),
        [RemoteCall.updateRepositoryDescription branchInput])
  | .ok _ => (none, [RemoteCall.updateRepositoryDescription branchInput])

/-- `resourceAwsCodeCommitUpdateDefaultBranch`: list the branches, return nil
without updating when there are none, otherwise update the default branch;
failures of either call are wrapped. -/
def resourceAwsCodeCommitUpdateDefaultBranch (conn : Conn) (d : ResourceData) :
    Option String × List RemoteCall :=
  let input : ListBranchesInput := { repositoryName := d.id }
  match conn.listBranches input with
  | .error err =>
      (some ("Error reading CodeCommit Repository branches: " ++ err.render),
        [RemoteCall.listBranches input])
  | .ok out =>
      if out.branches.length == 0 then
        (none, [RemoteCall.listBranches input])
      else
        let branchInput : UpdateDefaultBranchInput :=
          { repositoryName := d.id, defaultBranchName := d.default_branch }
        match conn.updateDefaultBranch branchInput with
        | .error err =>
            (some ("Error Updating Default Branch for CodeCommit Repository: "
                ++ err.render),
              [RemoteCall.listBranches input, RemoteCall.updateDefaultBranch branchInput])
        | .ok _ =>
            (none,
              [RemoteCall.listBranches input, RemoteCall.updateDefaultBranch branchInput])

/-- The first block of the Update handler: run the default-branch helper when
`default_branch` is set (`GetOk`) and has changed. -/
def updateDefaultBranchStep (conn : Conn) (d : ResourceData) :
    Option String × List RemoteCall :=
  if d.default_branch != "" && d.hasChangeDefaultBranch then
    resourceAwsCodeCommitUpdateDefaultBranch conn d
  else (none, [])

/-- The second block of the Update handler: run the description helper when
`description` has changed. -/
def updateDescriptionStep (conn : Conn) (d : ResourceData) :
    Option String × List RemoteCall :=
  if d.hasChangeDescription then
    resourceAwsCodeCommitUpdateDescription conn d
  else (none, [])

/-- The third block of the Update handler: reconcile tags through the
external helper unless the resource is new, wrapping a failure. -/
def updateTagsStep (conn : Conn) (d : ResourceData) :
    Option String × List RemoteCall :=
  if !d.isNewResource then
    match conn.setTagsCodeCommit d.id d.tags with
    | .error err =>
        (some ("error updating CodeCommit Repository tags for " ++ d.id ++ ": "
            ++ err.render),
          [RemoteCall.setTagsHelper d.id d.tags])
    | .ok _ => (none, [RemoteCall.setTagsHelper d.id d.tags])
  else (none, [])

/-- `resourceAwsCodeCommitRepositoryRead`: get the repository; on the
repository-does-not-exist error code clear the Id and return nil, on any
other error return it wrapped; on success copy six metadata fields into
state, copy the default branch only when the attribute is set and the
metadata carries one, then list and store the tags. -/
def resourceAwsCodeCommitRepositoryRead (conn : Conn) (d : ResourceData) :
    HandlerResult :=
  let input : GetRepositoryInput := { repositoryName := d.id }
  match conn.getRepository input with
  | .error err =>
      if isAWSErr err ErrCodeRepositoryDoesNotExistException "" then
        { err := none, d := { d with id := "" }, calls := [RemoteCall.getRepository input] }
      else
        { err := some ("Error reading CodeCommit Repository: " ++ err.render)
          d := d
          calls := [RemoteCall.getRepository input] }
  | .ok out =>
      let m := out.repositoryMetadata
      let d1 : ResourceData :=
        { d with
          repository_id := m.repositoryId
          arn := m.arn
          clone_url_http := m.cloneUrlHttp
          clone_url_ssh := m.cloneUrlSsh
          description := m.repositoryDescription
          repository_name := m.repositoryName }
      let d2 : ResourceData :=
        if d1.default_branch != "" then
          match m.defaultBranch with
          | some b => { d1 with default_branch := b }
          | none => d1
        else d1
      let tagsInput : ListTagsForResourceInput := { resourceArn := m.arn }
      match conn.listTagsForResource tagsInput with
      | .error err =>
          { err := some ("error listing CodeCommit Repository tags for " ++ d2.id
              ++ ": " ++ err.render)
            d := d2
            calls := [RemoteCall.getRepository input, RemoteCall.listTagsForResource tagsInput] }
      | .ok tagList =>
          { err := none
            d := { d2 with tags := tagsToMapCodeCommit tagList.tags }
            calls := [RemoteCall.getRepository input, RemoteCall.listTagsForResource tagsInput] }

/-- `resourceAwsCodeCommitRepositoryUpdate`: the three blocks in order, each
returning its error immediately, then chain into the Read handler. -/
def resourceAwsCodeCommitRepositoryUpdate (conn : Conn) (d : ResourceData) :
    HandlerResult :=
  match updateDefaultBranchStep conn d with
  | (some e, c₁) => { err := some e, d := d, calls := c₁ }
  | (none, c₁) =>
    match updateDescriptionStep conn d with
    | (some e, c₂) => { err := some e, d := d, calls := c₁ ++ c₂ }
    | (none, c₂) =>
      match updateTagsStep conn d with
      | (some e, c₃) => { err := some e, d := d, calls := c₁ ++ c₂ ++ c₃ }
      | (none, c₃) =>
        let r := resourceAwsCodeCommitRepositoryRead conn d
        { err := r.err, d := r.d, calls := c₁ ++ c₂ ++ c₃ ++ r.calls }

/-- `resourceAwsCodeCommitRepositoryCreate`: create the repository (failures
wrapped), set the Id to the configured name and the four computed
attributes, then chain into the Update handler. -/
def resourceAwsCodeCommitRepositoryCreate (conn : Conn) (d : ResourceData) :
    HandlerResult :=
  let input := createInput d
  match conn.createRepository input with
  | .error err =>
      { err := some ("Error creating CodeCommit Repository: " ++ err.render)
        d := d
        calls := [RemoteCall.createRepository input] }
  | .ok out =>
      let r := resourceAwsCodeCommitRepositoryUpdate conn (postCreateState d out)
      { err := r.err, d := r.d, calls := RemoteCall.createRepository input :: r.calls }

/-- `resourceAwsCodeCommitRepositoryDelete`: delete the repository by the
resource Id, wrapping a failure. -/
def resourceAwsCodeCommitRepositoryDelete (conn : Conn) (d : ResourceData) :
    HandlerResult :=
  let input : DeleteRepositoryInput := { repositoryName := d.id }
  match conn.deleteRepository input with
  | .error err =>
      { err := some ("Error deleting CodeCommit Repository: " ++ err.render)
        d := d
        calls := [RemoteCall.deleteRepository input] }
  | .ok _ => { err := none, d := d, calls := [RemoteCall.deleteRepository input] }

/-! ## The declarative attribute schema -/

inductive AttrType where
  | string
  | map
deriving Repr, DecidableEq

/-- One attribute declaration: the `schema.Schema` flags this file sets, and
the `StringLenBetween` bounds when a `ValidateFunc` is attached. -/
structure AttrSchema where
  type : AttrType
  required : Bool := false
  optional : Bool := false
  computed : Bool := false
  forceNew : Bool := false
  validateLenBetween : Option (Nat × Nat) := none
deriving Repr, DecidableEq

/-- `validation.StringLenBetween lo hi`: accept a string iff its length lies
between the bounds (length in characters in this model, bytes in Go). -/
def stringLenBetween (lo hi : Nat) (s : String) : Bool :=
  decide (lo ≤ s.length) && decide (s.length ≤ hi)

/-- Whether an attribute's validation accepts a string. -/
def attrAccepts (a : AttrSchema) (s : String) : Bool :=
  match a.validateLenBetween with
  | none => true
  | some (lo, hi) => stringLenBetween lo hi s

/-- Modelled from the spec: `tagsSchema` (defined outside this file) declares
the optional key/value tag-map attribute. -/
def tagsSchema : AttrSchema :=
  { type := AttrType.map, optional := true }

/-- The `Schema` map of `resourceAwsCodeCommitRepository`, in source order. -/
def resourceAwsCodeCommitRepositorySchema : List (String × AttrSchema) :=
  [("repository_name",
      { type := AttrType.string, required := true, forceNew := true
        validateLenBetween := some (0, 100) }),
    ("description",
      { type := AttrType.string, optional := true
        validateLenBetween := some (0, 1000) }),
    ("arn", { type := AttrType.string, computed := true }),
    ("repository_id", { type := AttrType.string, computed := true }),
    ("clone_url_http", { type := AttrType.string, computed := true }),
    ("clone_url_ssh", { type := AttrType.string, computed := true }),
    ("default_branch", { type := AttrType.string, optional := true }),
    ("tags", tagsSchema)]

/-! ## Concrete fixtures used by the witness theorems -/

def mdata : RepositoryMetadata :=
  { repositoryId := "rid-1", arn := "arn:aws:codecommit:r1"
    cloneUrlHttp := "https://git.example/r1", cloneUrlSsh := "ssh://git.example/r1"
    repositoryDescription := "remote description", repositoryName := "remote-name"
    defaultBranch := some "main" }

def d0 : ResourceData :=
  { id := "repo-a", repository_name := "repo-a", description := "local description"
    arn := "old-arn", repository_id := "old-rid", clone_url_http := "old-http"
    clone_url_ssh := "old-ssh", default_branch := "main"
    tags := [("team", "dev")]
    isNewResource := false, hasChangeDefaultBranch := true, hasChangeDescription := true }

/-- An oracle on which every remote call succeeds. -/
def connOk : Conn :=
  { createRepository := fun _ => Except.ok { repositoryMetadata := mdata }
    getRepository := fun _ => Except.ok { repositoryMetadata := mdata }
    deleteRepository := fun _ => Except.ok ()
    updateRepositoryDescription := fun _ => Except.ok ()
    updateDefaultBranch := fun _ => Except.ok ()
    listBranches := fun _ => Except.ok { branches := ["main"] }
    listTagsForResource := fun _ => Except.ok { tags := [⟨"team", "dev"⟩] }
    setTagsCodeCommit := fun _ _ => Except.ok () }

def errDNE : AwsErr :=
  { code := "RepositoryDoesNotExistException", message := "no such repository" }

def errBoom : AwsErr :=
  { code := "AccessDeniedException", message := "nope" }

def connDNE : Conn :=
  { connOk with getRepository := fun _ => Except.error errDNE }

def connGetErr : Conn :=
  { connOk with getRepository := fun _ => Except.error errBoom }

def connCreateErr : Conn :=
  { connOk with createRepository := fun _ => Except.error errBoom }

/-! ## Helper lemmas -/

lemma strContains_empty (s : String) : strContains s "" = true := by
  unfold strContains
  rw [show "".isEmpty = true from rfl]
  simp

lemma isAWSErr_empty_message (e : AwsErr) (c : String) :
    isAWSErr e c "" = (e.code == c) := by
  simp [isAWSErr, strContains_empty]

/-! ## Claims -/

/-- Claim C1: when the Read handler's get-repository call fails with the
repository-does-not-exist error code, the handler clears the resource Id and
returns nil; when it fails with any other error code, the handler returns a
non-nil error. -/
theorem read_not_found_clears_identity (conn : Conn) (d : ResourceData) (e : AwsErr)
    (h : conn.getRepository { repositoryName := d.id } = Except.error e) :
    (e.code = ErrCodeRepositoryDoesNotExistException →
      (resourceAwsCodeCommitRepositoryRead conn d).err = none ∧
        (resourceAwsCodeCommitRepositoryRead conn d).d.id = "") ∧
    (e.code ≠ ErrCodeRepositoryDoesNotExistException →
      (resourceAwsCodeCommitRepositoryRead conn d).err ≠ none) := by
  constructor
  · intro hc
    simp [resourceAwsCodeCommitRepositoryRead, h, isAWSErr_empty_message, hc]
  · intro hc
    simp [resourceAwsCodeCommitRepositoryRead, h, isAWSErr_empty_message, hc]

/-- Concrete check of `read_not_found_clears_identity` on both error codes. -/
theorem read_not_found_clears_identity_witness :
    ((resourceAwsCodeCommitRepositoryRead connDNE d0).err = none ∧
        (resourceAwsCodeCommitRepositoryRead connDNE d0).d.id = "") ∧
      (resourceAwsCodeCommitRepositoryRead connGetErr d0).err ≠ none := by
  refine ⟨(read_not_found_clears_identity connDNE d0 errDNE rfl).1 rfl, ?_⟩
  exact (read_not_found_clears_identity connGetErr d0 errBoom rfl).2 (by decide)

/-- Claim C9: when the Create handler's create-repository call fails, it
returns the wrapped error and the state is unchanged: no Id and no computed
attribute has been set. -/
theorem create_failure_leaves_state_unchanged (conn : Conn) (d : ResourceData)
    (e : AwsErr)
    (h : conn.createRepository (createInput d) = Except.error e) :
    (resourceAwsCodeCommitRepositoryCreate conn d).err =
        some ("Error creating CodeCommit Repository: " ++ e.render) ∧
      (resourceAwsCodeCommitRepositoryCreate conn d).d = d := by
  simp [resourceAwsCodeCommitRepositoryCreate, h]

/-- Concrete check of `create_failure_leaves_state_unchanged`. -/
theorem create_failure_leaves_state_unchanged_witness :
    (resourceAwsCodeCommitRepositoryCreate connCreateErr d0).err =
        some ("Error creating CodeCommit Repository: " ++ errBoom.render) ∧
      (resourceAwsCodeCommitRepositoryCreate connCreateErr d0).d = d0 :=
  create_failure_leaves_state_unchanged connCreateErr d0 errBoom rfl

/-- Claim C6: when the Read handler's get-repository call succeeds, the six
metadata fields of the response are copied into local state. -/
theorem read_success_copies_metadata (conn : Conn) (d : ResourceData)
    (out : GetRepositoryOutput)
    (h : conn.getRepository { repositoryName := d.id } = Except.ok out) :
    (resourceAwsCodeCommitRepositoryRead conn d).d.repository_id =
        out.repositoryMetadata.repositoryId ∧
      (resourceAwsCodeCommitRepositoryRead conn d).d.arn =
        out.repositoryMetadata.arn ∧
      (resourceAwsCodeCommitRepositoryRead conn d).d.clone_url_http =
        out.repositoryMetadata.cloneUrlHttp ∧
      (resourceAwsCodeCommitRepositoryRead conn d).d.clone_url_ssh =
        out.repositoryMetadata.cloneUrlSsh ∧
      (resourceAwsCodeCommitRepositoryRead conn d).d.description =
        out.repositoryMetadata.repositoryDescription ∧
      (resourceAwsCodeCommitRepositoryRead conn d).d.repository_name =
        out.repositoryMetadata.repositoryName := by
  cases hlt : conn.listTagsForResource { resourceArn := out.repositoryMetadata.arn } <;>
    by_cases hdb : d.default_branch != "" <;>
      cases hmb : out.repositoryMetadata.defaultBranch <;>
        simp [resourceAwsCodeCommitRepositoryRead, h, hlt, hdb, hmb]

/-- Concrete check of `read_success_copies_metadata`. -/
theorem read_success_copies_metadata_witness :
    (resourceAwsCodeCommitRepositoryRead connOk d0).d.repository_id =
        mdata.repositoryId ∧
      (resourceAwsCodeCommitRepositoryRead connOk d0).d.arn = mdata.arn ∧
      (resourceAwsCodeCommitRepositoryRead connOk d0).d.clone_url_http =
        mdata.cloneUrlHttp ∧
      (resourceAwsCodeCommitRepositoryRead connOk d0).d.clone_url_ssh =
        mdata.cloneUrlSsh ∧
      (resourceAwsCodeCommitRepositoryRead connOk d0).d.description =
        mdata.repositoryDescription ∧
      (resourceAwsCodeCommitRepositoryRead connOk d0).d.repository_name =
        mdata.repositoryName :=
  read_success_copies_metadata connOk d0 ⟨mdata⟩ rfl

/-- Claim C8: when get-repository succeeds but the local `default_branch` is
unset (`GetOk` false) or the metadata carries no default branch, Read leaves
`default_branch` unchanged while still updating the other read attributes. -/
theorem read_preserves_unset_default_branch (conn : Conn) (d : ResourceData)
    (out : GetRepositoryOutput)
    (h : conn.getRepository { repositoryName := d.id } = Except.ok out)
    (hdb : d.default_branch = "" ∨ out.repositoryMetadata.defaultBranch = none) :
    (resourceAwsCodeCommitRepositoryRead conn d).d.default_branch =
        d.default_branch ∧
      (resourceAwsCodeCommitRepositoryRead conn d).d.repository_id =
        out.repositoryMetadata.repositoryId ∧
      (resourceAwsCodeCommitRepositoryRead conn d).d.arn =
        out.repositoryMetadata.arn ∧
      (resourceAwsCodeCommitRepositoryRead conn d).d.clone_url_http =
        out.repositoryMetadata.cloneUrlHttp ∧
      (resourceAwsCodeCommitRepositoryRead conn d).d.clone_url_ssh =
        out.repositoryMetadata.cloneUrlSsh ∧
      (resourceAwsCodeCommitRepositoryRead conn d).d.description =
        out.repositoryMetadata.repositoryDescription ∧
      (resourceAwsCodeCommitRepositoryRead conn d).d.repository_name =
        out.repositoryMetadata.repositoryName := by
  rcases hdb with hdb | hdb <;>
    cases hlt : conn.listTagsForResource { resourceArn := out.repositoryMetadata.arn } <;>
      simp [resourceAwsCodeCommitRepositoryRead, h, hlt, hdb]

/-- Concrete check of `read_preserves_unset_default_branch` with an unset
local default branch. -/
theorem read_preserves_unset_default_branch_witness :
    (resourceAwsCodeCommitRepositoryRead connOk
          { d0 with default_branch := "" }).d.default_branch =
        ({ d0 with default_branch := "" } : ResourceData).default_branch ∧
      (resourceAwsCodeCommitRepositoryRead connOk
          { d0 with default_branch := "" }).d.repository_id =
        mdata.repositoryId ∧
      (resourceAwsCodeCommitRepositoryRead connOk
          { d0 with default_branch := "" }).d.arn = mdata.arn ∧
      (resourceAwsCodeCommitRepositoryRead connOk
          { d0 with default_branch := "" }).d.clone_url_http =
        mdata.cloneUrlHttp ∧
      (resourceAwsCodeCommitRepositoryRead connOk
          { d0 with default_branch := "" }).d.clone_url_ssh =
        mdata.cloneUrlSsh ∧
      (resourceAwsCodeCommitRepositoryRead connOk
          { d0 with default_branch := "" }).d.description =
        mdata.repositoryDescription ∧
      (resourceAwsCodeCommitRepositoryRead connOk
          { d0 with default_branch := "" }).d.repository_name =
        mdata.repositoryName :=
  read_preserves_unset_default_branch connOk { d0 with default_branch := "" }
    ⟨mdata⟩ rfl (Or.inl rfl)

/-! ## Decomposition lemmas for the Update handler -/

lemma update_eq_stage1_err (conn : Conn) (d : ResourceData) (e : String)
    (c : List RemoteCall) (h : updateDefaultBranchStep conn d = (some e, c)) :
    resourceAwsCodeCommitRepositoryUpdate conn d =
      { err := some e, d := d, calls := c } := by
  unfold resourceAwsCodeCommitRepositoryUpdate
  rw [h]

lemma update_eq_stage2_err (conn : Conn) (d : ResourceData) (c₁ : List RemoteCall)
    (e : String) (c₂ : List RemoteCall)
    (h1 : updateDefaultBranchStep conn d = (none, c₁))
    (h2 : updateDescriptionStep conn d = (some e, c₂)) :
    resourceAwsCodeCommitRepositoryUpdate conn d =
      { err := some e, d := d, calls := c₁ ++ c₂ } := by
  unfold resourceAwsCodeCommitRepositoryUpdate
  rw [h1, h2]

lemma update_eq_stage3_err (conn : Conn) (d : ResourceData)
    (c₁ c₂ : List RemoteCall) (e : String) (c₃ : List RemoteCall)
    (h1 : updateDefaultBranchStep conn d = (none, c₁))
    (h2 : updateDescriptionStep conn d = (none, c₂))
    (h3 : updateTagsStep conn d = (some e, c₃)) :
    resourceAwsCodeCommitRepositoryUpdate conn d =
      { err := some e, d := d, calls := c₁ ++ c₂ ++ c₃ } := by
  unfold resourceAwsCodeCommitRepositoryUpdate
  rw [h1, h2, h3]

lemma update_eq_read (conn : Conn) (d : ResourceData) (c₁ c₂ c₃ : List RemoteCall)
    (h1 : updateDefaultBranchStep conn d = (none, c₁))
    (h2 : updateDescriptionStep conn d = (none, c₂))
    (h3 : updateTagsStep conn d = (none, c₃)) :
    resourceAwsCodeCommitRepositoryUpdate conn d =
      { err := (resourceAwsCodeCommitRepositoryRead conn d).err
        d := (resourceAwsCodeCommitRepositoryRead conn d).d
        calls := c₁ ++ c₂ ++ c₃ ++ (resourceAwsCodeCommitRepositoryRead conn d).calls } := by
  unfold resourceAwsCodeCommitRepositoryUpdate
  rw [h1, h2, h3]

lemma updateDefaultBranchStep_active (conn : Conn) (d : ResourceData)
    (hok : d.default_branch ≠ "") (hch : d.hasChangeDefaultBranch = true) :
    updateDefaultBranchStep conn d = resourceAwsCodeCommitUpdateDefaultBranch conn d := by
  simp [updateDefaultBranchStep, hok, hch]

/-! ## Which calls each piece can emit -/

lemma descriptionStep_calls_shape (conn : Conn) (d : ResourceData) :
    (updateDescriptionStep conn d).2 = [] ∨
      (updateDescriptionStep conn d).2 =
        [RemoteCall.updateRepositoryDescription
          { repositoryName := d.id, repositoryDescription := d.description }] := by
  by_cases hch : d.hasChangeDescription <;>
    cases h : conn.updateRepositoryDescription
        { repositoryName := d.id, repositoryDescription := d.description } <;>
      simp [updateDescriptionStep, resourceAwsCodeCommitUpdateDescription, hch, h]

lemma tagsStep_calls_shape (conn : Conn) (d : ResourceData) :
    (updateTagsStep conn d).2 = [] ∨
      (updateTagsStep conn d).2 = [RemoteCall.setTagsHelper d.id d.tags] := by
  by_cases hnew : d.isNewResource <;>
    cases h : conn.setTagsCodeCommit d.id d.tags <;>
      simp [updateTagsStep, hnew, h]

lemma defaultBranchStep_calls_shape (conn : Conn) (d : ResourceData) :
    (updateDefaultBranchStep conn d).2 = [] ∨
      (updateDefaultBranchStep conn d).2 =
        [RemoteCall.listBranches { repositoryName := d.id }] ∨
      (updateDefaultBranchStep conn d).2 =
        [RemoteCall.listBranches { repositoryName := d.id },
          RemoteCall.updateDefaultBranch
            { repositoryName := d.id, defaultBranchName := d.default_branch }] := by
  by_cases hc : d.default_branch != "" && d.hasChangeDefaultBranch
  · rw [show updateDefaultBranchStep conn d =
        resourceAwsCodeCommitUpdateDefaultBranch conn d by
      simp [updateDefaultBranchStep, hc]]
    cases hl : conn.listBranches { repositoryName := d.id } with
    | error e => simp [resourceAwsCodeCommitUpdateDefaultBranch, hl]
    | ok out =>
      cases hbr : out.branches <;>
        cases hu : conn.updateDefaultBranch
            { repositoryName := d.id, defaultBranchName := d.default_branch } <;>
          simp [resourceAwsCodeCommitUpdateDefaultBranch, hl, hbr, hu]
  · simp [updateDefaultBranchStep, hc]

lemma read_calls_shape (conn : Conn) (d : ResourceData) :
    (resourceAwsCodeCommitRepositoryRead conn d).calls =
        [RemoteCall.getRepository { repositoryName := d.id }] ∨
      ∃ a, (resourceAwsCodeCommitRepositoryRead conn d).calls =
        [RemoteCall.getRepository { repositoryName := d.id },
          RemoteCall.listTagsForResource a] := by
  cases h : conn.getRepository { repositoryName := d.id }
  case error e =>
    by_cases hc : isAWSErr e ErrCodeRepositoryDoesNotExistException "" <;>
      simp [resourceAwsCodeCommitRepositoryRead, h, hc]
  case ok out =>
    right
    refine ⟨{ resourceArn := out.repositoryMetadata.arn }, ?_⟩
    cases hlt : conn.listTagsForResource { resourceArn := out.repositoryMetadata.arn } <;>
      simp [resourceAwsCodeCommitRepositoryRead, h, hlt]

lemma descriptionStep_no_udb (conn : Conn) (d : ResourceData) :
    (updateDescriptionStep conn d).2.any RemoteCall.isUpdateDefaultBranch = false := by
  rcases descriptionStep_calls_shape conn d with h | h <;>
    simp [h, RemoteCall.isUpdateDefaultBranch]

lemma tagsStep_no_udb (conn : Conn) (d : ResourceData) :
    (updateTagsStep conn d).2.any RemoteCall.isUpdateDefaultBranch = false := by
  rcases tagsStep_calls_shape conn d with h | h <;>
    simp [h, RemoteCall.isUpdateDefaultBranch]

lemma read_no_udb (conn : Conn) (d : ResourceData) :
    (resourceAwsCodeCommitRepositoryRead conn d).calls.any
      RemoteCall.isUpdateDefaultBranch = false := by
  rcases read_calls_shape conn d with h | ⟨a, h⟩ <;>
    simp [h, RemoteCall.isUpdateDefaultBranch]

lemma descriptionStep_no_settags (conn : Conn) (d : ResourceData) :
    (updateDescriptionStep conn d).2.any RemoteCall.isSetTagsHelper = false := by
  rcases descriptionStep_calls_shape conn d with h | h <;>
    simp [h, RemoteCall.isSetTagsHelper]

lemma defaultBranchStep_no_settags (conn : Conn) (d : ResourceData) :
    (updateDefaultBranchStep conn d).2.any RemoteCall.isSetTagsHelper = false := by
  rcases defaultBranchStep_calls_shape conn d with h | h | h <;>
    simp [h, RemoteCall.isSetTagsHelper]

lemma read_no_settags (conn : Conn) (d : ResourceData) :
    (resourceAwsCodeCommitRepositoryRead conn d).calls.any
      RemoteCall.isSetTagsHelper = false := by
  rcases read_calls_shape conn d with h | ⟨a, h⟩ <;>
    simp [h, RemoteCall.isSetTagsHelper]

/-- Once the default-branch block has passed without error, the rest of the
Update handler appends calls none of which is an update-default-branch. -/
lemma update_calls_after_stage1 (conn : Conn) (d : ResourceData)
    (c₁ : List RemoteCall)
    (h1 : updateDefaultBranchStep conn d = (none, c₁)) :
    ∃ rest : List RemoteCall,
      (resourceAwsCodeCommitRepositoryUpdate conn d).calls = c₁ ++ rest ∧
        rest.any RemoteCall.isUpdateDefaultBranch = false := by
  rcases h2 : updateDescriptionStep conn d with ⟨e2, c2⟩
  have hc2 : c2.any RemoteCall.isUpdateDefaultBranch = false := by
    have h := descriptionStep_no_udb conn d
    rw [h2] at h
    exact h
  cases e2 with
  | some e =>
    exact ⟨c2, by rw [update_eq_stage2_err conn d c₁ e c2 h1 h2], hc2⟩
  | none =>
    rcases h3 : updateTagsStep conn d with ⟨e3, c3⟩
    have hc3 : c3.any RemoteCall.isUpdateDefaultBranch = false := by
      have h := tagsStep_no_udb conn d
      rw [h3] at h
      exact h
    cases e3 with
    | some e =>
      refine ⟨c2 ++ c3, ?_, ?_⟩
      · rw [update_eq_stage3_err conn d c₁ c2 e c3 h1 h2 h3]
        simp [List.append_assoc]
      · simp [List.any_append, hc2, hc3]
    | none =>
      refine ⟨c2 ++ c3 ++ (resourceAwsCodeCommitRepositoryRead conn d).calls, ?_, ?_⟩
      · rw [update_eq_read conn d c₁ c2 c3 h1 h2 h3]
        simp [List.append_assoc]
      · simp [List.any_append, hc2, hc3, read_no_udb]

def connNoBranches : Conn :=
  { connOk with listBranches := fun _ => Except.ok { branches := [] } }

/-- Claim C2: when `default_branch` is set and changed, Update first lists
the branches; the update-default-branch call is attempted exactly when the
branch list is non-empty, and on an empty branch list the default-branch
helper returns nil having made only the list-branches call. -/
theorem update_default_branch_only_with_branches (conn : Conn) (d : ResourceData)
    (out : ListBranchesOutput)
    (hok : d.default_branch ≠ "") (hch : d.hasChangeDefaultBranch = true)
    (hl : conn.listBranches { repositoryName := d.id } = Except.ok out) :
    (resourceAwsCodeCommitRepositoryUpdate conn d).calls.head? =
        some (RemoteCall.listBranches { repositoryName := d.id }) ∧
      (resourceAwsCodeCommitRepositoryUpdate conn d).calls.any
        RemoteCall.isUpdateDefaultBranch = !out.branches.isEmpty ∧
      (out.branches = [] →
        resourceAwsCodeCommitUpdateDefaultBranch conn d =
          (none, [RemoteCall.listBranches { repositoryName := d.id }])) := by
  have hst := updateDefaultBranchStep_active conn d hok hch
  cases hbr : out.branches with
  | nil =>
    have hhelp : resourceAwsCodeCommitUpdateDefaultBranch conn d =
        (none, [RemoteCall.listBranches { repositoryName := d.id }]) := by
      simp [resourceAwsCodeCommitUpdateDefaultBranch, hl, hbr]
    obtain ⟨rest, hcalls, hrest⟩ :=
      update_calls_after_stage1 conn d _ (hst.trans hhelp)
    refine ⟨?_, ?_, fun _ => hhelp⟩
    · rw [hcalls]
      simp
    · rw [hcalls]
      simp [List.any_append, hrest, RemoteCall.isUpdateDefaultBranch]
  | cons b bs =>
    cases hu : conn.updateDefaultBranch
        { repositoryName := d.id, defaultBranchName := d.default_branch } with
    | error e =>
      have hs1 : updateDefaultBranchStep conn d =
          (some ("Error Updating Default Branch for CodeCommit Repository: "
              ++ e.render),
            [RemoteCall.listBranches { repositoryName := d.id },
              RemoteCall.updateDefaultBranch
                { repositoryName := d.id, defaultBranchName := d.default_branch }]) := by
        rw [hst]
        simp [resourceAwsCodeCommitUpdateDefaultBranch, hl, hbr, hu]
      rw [update_eq_stage1_err conn d _ _ hs1]
      refine ⟨rfl, by simp [RemoteCall.isUpdateDefaultBranch], fun hemp => ?_⟩
      exact absurd hemp (by simp)
    | ok u =>
      have hs1 : updateDefaultBranchStep conn d =
          (none,
            [RemoteCall.listBranches { repositoryName := d.id },
              RemoteCall.updateDefaultBranch
                { repositoryName := d.id, defaultBranchName := d.default_branch }]) := by
        rw [hst]
        simp [resourceAwsCodeCommitUpdateDefaultBranch, hl, hbr, hu]
      obtain ⟨rest, hcalls, hrest⟩ := update_calls_after_stage1 conn d _ hs1
      refine ⟨?_, ?_, fun hemp => ?_⟩
      · rw [hcalls]
        simp
      · rw [hcalls]
        simp [List.any_append, hrest, RemoteCall.isUpdateDefaultBranch]
      · exact absurd hemp (by simp)

/-- Concrete check of `update_default_branch_only_with_branches`, on a
repository with one branch and on a repository with none. -/
theorem update_default_branch_only_with_branches_witness :
    ((resourceAwsCodeCommitRepositoryUpdate connOk d0).calls.head? =
        some (RemoteCall.listBranches { repositoryName := d0.id }) ∧
      (resourceAwsCodeCommitRepositoryUpdate connOk d0).calls.any
        RemoteCall.isUpdateDefaultBranch = !(["main"] : List String).isEmpty) ∧
      resourceAwsCodeCommitUpdateDefaultBranch connNoBranches d0 =
        (none, [RemoteCall.listBranches { repositoryName := d0.id }]) := by
  refine ⟨⟨?_, ?_⟩, ?_⟩
  · exact (update_default_branch_only_with_branches connOk d0 ⟨["main"]⟩
      (by decide) rfl rfl).1
  · exact (update_default_branch_only_with_branches connOk d0 ⟨["main"]⟩
      (by decide) rfl rfl).2.1
  · exact (update_default_branch_only_with_branches connNoBranches d0 ⟨[]⟩
      (by decide) rfl rfl).2.2 rfl

/-- Claim C4: a successful create-repository chains into the Update handler,
and an Update in which no block returns an error early chains into the Read
handler, so a successful Create is Create followed by Update followed by
Read. -/
theorem create_chains_update_chains_read (conn : Conn) (d : ResourceData) :
    (∀ out, conn.createRepository (createInput d) = Except.ok out →
      resourceAwsCodeCommitRepositoryCreate conn d =
        { err := (resourceAwsCodeCommitRepositoryUpdate conn (postCreateState d out)).err
          d := (resourceAwsCodeCommitRepositoryUpdate conn (postCreateState d out)).d
          calls := RemoteCall.createRepository (createInput d) ::
            (resourceAwsCodeCommitRepositoryUpdate conn (postCreateState d out)).calls }) ∧
    ((updateDefaultBranchStep conn d).1 = none →
      (updateDescriptionStep conn d).1 = none →
      (updateTagsStep conn d).1 = none →
      resourceAwsCodeCommitRepositoryUpdate conn d =
        { err := (resourceAwsCodeCommitRepositoryRead conn d).err
          d := (resourceAwsCodeCommitRepositoryRead conn d).d
          calls := (updateDefaultBranchStep conn d).2 ++ (updateDescriptionStep conn d).2
            ++ (updateTagsStep conn d).2
            ++ (resourceAwsCodeCommitRepositoryRead conn d).calls }) := by
  constructor
  · intro out h
    simp [resourceAwsCodeCommitRepositoryCreate, h]
  · intro h1 h2 h3
    have e1 : updateDefaultBranchStep conn d = (none, (updateDefaultBranchStep conn d).2) := by
      rw [← h1]
    have e2 : updateDescriptionStep conn d = (none, (updateDescriptionStep conn d).2) := by
      rw [← h2]
    have e3 : updateTagsStep conn d = (none, (updateTagsStep conn d).2) := by
      rw [← h3]
    exact update_eq_read conn d _ _ _ e1 e2 e3

/-- Concrete check of `create_chains_update_chains_read` on an oracle on
which every call succeeds. -/
theorem create_chains_update_chains_read_witness :
    resourceAwsCodeCommitRepositoryCreate connOk d0 =
      { err := (resourceAwsCodeCommitRepositoryUpdate connOk (postCreateState d0 ⟨mdata⟩)).err
        d := (resourceAwsCodeCommitRepositoryUpdate connOk (postCreateState d0 ⟨mdata⟩)).d
        calls := RemoteCall.createRepository (createInput d0) ::
          (resourceAwsCodeCommitRepositoryUpdate connOk (postCreateState d0 ⟨mdata⟩)).calls } ∧
    resourceAwsCodeCommitRepositoryUpdate connOk d0 =
      { err := (resourceAwsCodeCommitRepositoryRead connOk d0).err
        d := (resourceAwsCodeCommitRepositoryRead connOk d0).d
        calls := (updateDefaultBranchStep connOk d0).2 ++ (updateDescriptionStep connOk d0).2
          ++ (updateTagsStep connOk d0).2
          ++ (resourceAwsCodeCommitRepositoryRead connOk d0).calls } :=
  ⟨(create_chains_update_chains_read connOk d0).1 ⟨mdata⟩ rfl,
    (create_chains_update_chains_read connOk d0).2 rfl rfl rfl⟩

/-- Claim C5: the repository name is the identifier: on a successful create
the resource Id is set to the configured repository_name before chaining into
Update, and the Read and Delete requests carry the resource Id as the
repository name. -/
theorem repository_name_sole_identifier (conn : Conn) (d : ResourceData) :
    (∀ out, conn.createRepository (createInput d) = Except.ok out →
      (postCreateState d out).id = d.repository_name ∧
        resourceAwsCodeCommitRepositoryCreate conn d =
          { err := (resourceAwsCodeCommitRepositoryUpdate conn (postCreateState d out)).err
            d := (resourceAwsCodeCommitRepositoryUpdate conn (postCreateState d out)).d
            calls := RemoteCall.createRepository (createInput d) ::
              (resourceAwsCodeCommitRepositoryUpdate conn (postCreateState d out)).calls }) ∧
    (resourceAwsCodeCommitRepositoryRead conn d).calls.head? =
      some (RemoteCall.getRepository { repositoryName := d.id }) ∧
    (resourceAwsCodeCommitRepositoryDelete conn d).calls =
      [RemoteCall.deleteRepository { repositoryName := d.id }] := by
  refine ⟨fun out h => ⟨rfl, by simp [resourceAwsCodeCommitRepositoryCreate, h]⟩, ?_, ?_⟩
  · rcases read_calls_shape conn d with h | ⟨a, h⟩ <;> simp [h]
  · cases h : conn.deleteRepository { repositoryName := d.id } <;>
      simp [resourceAwsCodeCommitRepositoryDelete, h]

/-- Concrete check of `repository_name_sole_identifier`. -/
theorem repository_name_sole_identifier_witness :
    (postCreateState d0 ⟨mdata⟩).id = d0.repository_name ∧
      (resourceAwsCodeCommitRepositoryRead connOk d0).calls.head? =
        some (RemoteCall.getRepository { repositoryName := d0.id }) ∧
      (resourceAwsCodeCommitRepositoryDelete connOk d0).calls =
        [RemoteCall.deleteRepository { repositoryName := d0.id }] :=
  ⟨((repository_name_sole_identifier connOk d0).1 ⟨mdata⟩ rfl).1,
    (repository_name_sole_identifier connOk d0).2.1,
    (repository_name_sole_identifier connOk d0).2.2⟩

def connDeleteErr : Conn :=
  { connOk with deleteRepository := fun _ => Except.error errBoom }

def connTagsErr : Conn :=
  { connOk with listTagsForResource := fun _ => Except.error errBoom }

def connBranchesErr : Conn :=
  { connOk with listBranches := fun _ => Except.error errBoom }

def connUDBErr : Conn :=
  { connOk with updateDefaultBranch := fun _ => Except.error errBoom }

def connDescErr : Conn :=
  { connOk with updateRepositoryDescription := fun _ => Except.error errBoom }

def connSetTagsErr : Conn :=
  { connOk with setTagsCodeCommit := fun _ _ => Except.error errBoom }

/-- Claim C3: every remote-call failure in Create, Update and Delete, and
every Read failure other than the repository-does-not-exist case of
get-repository, makes the handler return the underlying error wrapped with
its descriptive prefix and stop issuing remote calls: the failing call is
the last one in its trace. -/
theorem remote_failures_wrapped_and_abort (conn : Conn) (d : ResourceData)
    (e : AwsErr) :
    (conn.createRepository (createInput d) = Except.error e →
      resourceAwsCodeCommitRepositoryCreate conn d =
        { err := some ("Error creating CodeCommit Repository: " ++ e.render)
          d := d
          calls := [RemoteCall.createRepository (createInput d)] }) ∧
    (conn.deleteRepository { repositoryName := d.id } = Except.error e →
      resourceAwsCodeCommitRepositoryDelete conn d =
        { err := some ("Error deleting CodeCommit Repository: " ++ e.render)
          d := d
          calls := [RemoteCall.deleteRepository { repositoryName := d.id }] }) ∧
    (conn.getRepository { repositoryName := d.id } = Except.error e →
      e.code ≠ ErrCodeRepositoryDoesNotExistException →
      resourceAwsCodeCommitRepositoryRead conn d =
        { err := some ("Error reading CodeCommit Repository: " ++ e.render)
          d := d
          calls := [RemoteCall.getRepository { repositoryName := d.id }] }) ∧
    (∀ out, conn.getRepository { repositoryName := d.id } = Except.ok out →
      conn.listTagsForResource { resourceArn := out.repositoryMetadata.arn } =
        Except.error e →
      (resourceAwsCodeCommitRepositoryRead conn d).err =
          some ("error listing CodeCommit Repository tags for " ++ d.id ++ ": "
            ++ e.render) ∧
        (resourceAwsCodeCommitRepositoryRead conn d).calls =
          [RemoteCall.getRepository { repositoryName := d.id },
            RemoteCall.listTagsForResource
              { resourceArn := out.repositoryMetadata.arn }]) ∧
    (d.default_branch ≠ "" → d.hasChangeDefaultBranch = true →
      conn.listBranches { repositoryName := d.id } = Except.error e →
      resourceAwsCodeCommitRepositoryUpdate conn d =
        { err := some ("Error reading CodeCommit Repository branches: " ++ e.render)
          d := d
          calls := [RemoteCall.listBranches { repositoryName := d.id }] }) ∧
    (∀ out, d.default_branch ≠ "" → d.hasChangeDefaultBranch = true →
      conn.listBranches { repositoryName := d.id } = Except.ok out →
      out.branches ≠ [] →
      conn.updateDefaultBranch
          { repositoryName := d.id, defaultBranchName := d.default_branch } =
        Except.error e →
      resourceAwsCodeCommitRepositoryUpdate conn d =
        { err := some ("Error Updating Default Branch for CodeCommit Repository: "
            ++ e.render)
          d := d
          calls := [RemoteCall.listBranches { repositoryName := d.id },
            RemoteCall.updateDefaultBranch
              { repositoryName := d.id, defaultBranchName := d.default_branch }] }) ∧
    ((updateDefaultBranchStep conn d).1 = none → d.hasChangeDescription = true →
      conn.updateRepositoryDescription
          { repositoryName := d.id, repositoryDescription := d.description } =
        Except.error e →
      resourceAwsCodeCommitRepositoryUpdate conn d =
        { err := some ("Error Updating Repository Description for CodeCommit Repository: "
            ++ e.render)
          d := d
          calls := (updateDefaultBranchStep conn d).2 ++
            [RemoteCall.updateRepositoryDescription
              { repositoryName := d.id, repositoryDescription := d.description }] }) ∧
    ((updateDefaultBranchStep conn d).1 = none →
      (updateDescriptionStep conn d).1 = none →
      d.isNewResource = false →
      conn.setTagsCodeCommit d.id d.tags = Except.error e →
      resourceAwsCodeCommitRepositoryUpdate conn d =
        { err := some ("error updating CodeCommit Repository tags for " ++ d.id
            ++ ": " ++ e.render)
          d := d
          calls := (updateDefaultBranchStep conn d).2 ++ (updateDescriptionStep conn d).2
            ++ [RemoteCall.setTagsHelper d.id d.tags] }) := by
  refine ⟨?_, ?_, ?_, ?_, ?_, ?_, ?_, ?_⟩
  · intro h
    simp [resourceAwsCodeCommitRepositoryCreate, h]
  · intro h
    simp [resourceAwsCodeCommitRepositoryDelete, h]
  · intro h hc
    simp [resourceAwsCodeCommitRepositoryRead, h, isAWSErr_empty_message, hc]
  · intro out h hlt
    by_cases hdb : d.default_branch != "" <;>
      cases hmb : out.repositoryMetadata.defaultBranch <;>
        simp [resourceAwsCodeCommitRepositoryRead, h, hlt, hdb, hmb]
  · intro hok hch h
    have hs1 : updateDefaultBranchStep conn d =
        (some ("Error reading CodeCommit Repository branches: " ++ e.render),
          [RemoteCall.listBranches { repositoryName := d.id }]) := by
      rw [updateDefaultBranchStep_active conn d hok hch]
      simp [resourceAwsCodeCommitUpdateDefaultBranch, h]
    exact update_eq_stage1_err conn d _ _ hs1
  · intro out hok hch hl hne hu
    have hs1 : updateDefaultBranchStep conn d =
        (some ("Error Updating Default Branch for CodeCommit Repository: " ++ e.render),
          [RemoteCall.listBranches { repositoryName := d.id },
            RemoteCall.updateDefaultBranch
              { repositoryName := d.id, defaultBranchName := d.default_branch }]) := by
      rw [updateDefaultBranchStep_active conn d hok hch]
      cases hbr : out.branches with
      | nil => exact absurd hbr hne
      | cons b bs =>
        simp [resourceAwsCodeCommitUpdateDefaultBranch, hl, hbr, hu]
    exact update_eq_stage1_err conn d _ _ hs1
  · intro h1 hch h
    have e1 : updateDefaultBranchStep conn d =
        (none, (updateDefaultBranchStep conn d).2) := by
      rw [← h1]
    have hs2 : updateDescriptionStep conn d =
        (some ("Error Updating Repository Description for CodeCommit Repository: "
            ++ e.render),
          [RemoteCall.updateRepositoryDescription
            { repositoryName := d.id, repositoryDescription := d.description }]) := by
      simp [updateDescriptionStep, resourceAwsCodeCommitUpdateDescription, hch, h]
    exact update_eq_stage2_err conn d _ _ _ e1 hs2
  · intro h1 h2 hnew h
    have e1 : updateDefaultBranchStep conn d =
        (none, (updateDefaultBranchStep conn d).2) := by
      rw [← h1]
    have e2 : updateDescriptionStep conn d =
        (none, (updateDescriptionStep conn d).2) := by
      rw [← h2]
    have hs3 : updateTagsStep conn d =
        (some ("error updating CodeCommit Repository tags for " ++ d.id ++ ": "
            ++ e.render),
          [RemoteCall.setTagsHelper d.id d.tags]) := by
      simp [updateTagsStep, hnew, h]
    exact update_eq_stage3_err conn d _ _ _ _ e1 e2 hs3

/-- Concrete check of `remote_failures_wrapped_and_abort`: each of the eight
failure points, exercised on an oracle failing exactly there. -/
theorem remote_failures_wrapped_and_abort_witness :
    (resourceAwsCodeCommitRepositoryCreate connCreateErr d0).err =
        some ("Error creating CodeCommit Repository: " ++ errBoom.render) ∧
      (resourceAwsCodeCommitRepositoryDelete connDeleteErr d0).err =
        some ("Error deleting CodeCommit Repository: " ++ errBoom.render) ∧
      (resourceAwsCodeCommitRepositoryRead connGetErr d0).err =
        some ("Error reading CodeCommit Repository: " ++ errBoom.render) ∧
      (resourceAwsCodeCommitRepositoryRead connTagsErr d0).err =
        some ("error listing CodeCommit Repository tags for " ++ d0.id ++ ": "
          ++ errBoom.render) ∧
      (resourceAwsCodeCommitRepositoryUpdate connBranchesErr d0).err =
        some ("Error reading CodeCommit Repository branches: " ++ errBoom.render) ∧
      (resourceAwsCodeCommitRepositoryUpdate connUDBErr d0).err =
        some ("Error Updating Default Branch for CodeCommit Repository: "
          ++ errBoom.render) ∧
      (resourceAwsCodeCommitRepositoryUpdate connDescErr d0).err =
        some ("Error Updating Repository Description for CodeCommit Repository: "
          ++ errBoom.render) ∧
      (resourceAwsCodeCommitRepositoryUpdate connSetTagsErr d0).err =
        some ("error updating CodeCommit Repository tags for " ++ d0.id ++ ": "
          ++ errBoom.render) := by
  refine ⟨?_, ?_, ?_, ?_, ?_, ?_, ?_, ?_⟩
  · exact congrArg HandlerResult.err
      ((remote_failures_wrapped_and_abort connCreateErr d0 errBoom).1 rfl)
  · exact congrArg HandlerResult.err
      ((remote_failures_wrapped_and_abort connDeleteErr d0 errBoom).2.1 rfl)
  · exact congrArg HandlerResult.err
      ((remote_failures_wrapped_and_abort connGetErr d0 errBoom).2.2.1 rfl (by decide))
  · exact ((remote_failures_wrapped_and_abort connTagsErr d0 errBoom).2.2.2.1
      ⟨mdata⟩ rfl rfl).1
  · exact congrArg HandlerResult.err
      ((remote_failures_wrapped_and_abort connBranchesErr d0 errBoom).2.2.2.2.1
        (by decide) rfl rfl)
  · exact congrArg HandlerResult.err
      ((remote_failures_wrapped_and_abort connUDBErr d0 errBoom).2.2.2.2.2.1
        ⟨["main"]⟩ (by decide) rfl rfl (by decide) rfl)
  · exact congrArg HandlerResult.err
      ((remote_failures_wrapped_and_abort connDescErr d0 errBoom).2.2.2.2.2.2.1
        rfl rfl rfl)
  · exact congrArg HandlerResult.err
      ((remote_failures_wrapped_and_abort connSetTagsErr d0 errBoom).2.2.2.2.2.2.2
        rfl rfl rfl rfl)

/-- Claim C10: on a new resource (the Update chained from Create) the
tag-reconciliation helper is never called and tags travel only in the
create-repository request; on a non-new resource the helper is called after
the default-branch and description blocks, and its failure is returned
wrapped. -/
theorem tags_reconciled_only_when_not_new (conn : Conn) (d : ResourceData) :
    (d.isNewResource = true →
      (resourceAwsCodeCommitRepositoryUpdate conn d).calls.any
          RemoteCall.isSetTagsHelper = false ∧
        (createInput d).tags = tagsFromMapCodeCommit d.tags) ∧
    (d.isNewResource = false →
      (updateDefaultBranchStep conn d).1 = none →
      (updateDescriptionStep conn d).1 = none →
      (∃ rest, (resourceAwsCodeCommitRepositoryUpdate conn d).calls =
          (updateDefaultBranchStep conn d).2 ++ (updateDescriptionStep conn d).2
            ++ (RemoteCall.setTagsHelper d.id d.tags :: rest)) ∧
        (∀ e, conn.setTagsCodeCommit d.id d.tags = Except.error e →
          (resourceAwsCodeCommitRepositoryUpdate conn d).err =
            some ("error updating CodeCommit Repository tags for " ++ d.id
              ++ ": " ++ e.render))) := by
  constructor
  · intro hnew
    refine ⟨?_, rfl⟩
    rcases hs1 : updateDefaultBranchStep conn d with ⟨e1, c1⟩
    have hc1 : c1.any RemoteCall.isSetTagsHelper = false := by
      have h := defaultBranchStep_no_settags conn d
      rw [hs1] at h
      exact h
    cases e1 with
    | some e =>
      rw [update_eq_stage1_err conn d e c1 hs1]
      exact hc1
    | none =>
      rcases hs2 : updateDescriptionStep conn d with ⟨e2, c2⟩
      have hc2 : c2.any RemoteCall.isSetTagsHelper = false := by
        have h := descriptionStep_no_settags conn d
        rw [hs2] at h
        exact h
      cases e2 with
      | some e =>
        rw [update_eq_stage2_err conn d c1 e c2 hs1 hs2]
        simp [List.any_append, hc1, hc2]
      | none =>
        have hs3 : updateTagsStep conn d = (none, []) := by
          simp [updateTagsStep, hnew]
        rw [update_eq_read conn d c1 c2 [] hs1 hs2 hs3]
        simp [List.any_append, hc1, hc2, read_no_settags]
  · intro hnew h1 h2
    have e1 : updateDefaultBranchStep conn d =
        (none, (updateDefaultBranchStep conn d).2) := by
      rw [← h1]
    have e2 : updateDescriptionStep conn d =
        (none, (updateDescriptionStep conn d).2) := by
      rw [← h2]
    cases hst : conn.setTagsCodeCommit d.id d.tags with
    | error e =>
      have hs3 : updateTagsStep conn d =
          (some ("error updating CodeCommit Repository tags for " ++ d.id
              ++ ": " ++ e.render),
            [RemoteCall.setTagsHelper d.id d.tags]) := by
        simp [updateTagsStep, hnew, hst]
      rw [update_eq_stage3_err conn d _ _ _ _ e1 e2 hs3]
      refine ⟨⟨[], by simp⟩, fun e' he' => ?_⟩
      obtain rfl : e = e' := Except.error.inj he'
      rfl
    | ok u =>
      have hs3 : updateTagsStep conn d =
          (none, [RemoteCall.setTagsHelper d.id d.tags]) := by
        simp [updateTagsStep, hnew, hst]
      rw [update_eq_read conn d _ _ _ e1 e2 hs3]
      refine ⟨⟨(resourceAwsCodeCommitRepositoryRead conn d).calls, by
        simp [List.append_assoc]⟩, fun e' he' => ?_⟩
      simp at he'

/-- Concrete check of `tags_reconciled_only_when_not_new`: a new resource
never reaches the tag helper; a non-new one does, and a tag-helper failure
is wrapped. -/
theorem tags_reconciled_only_when_not_new_witness :
    ((resourceAwsCodeCommitRepositoryUpdate connOk
          { d0 with isNewResource := true }).calls.any
        RemoteCall.isSetTagsHelper = false ∧
      (createInput { d0 with isNewResource := true }).tags =
        tagsFromMapCodeCommit ({ d0 with isNewResource := true } : ResourceData).tags) ∧
      (∃ rest, (resourceAwsCodeCommitRepositoryUpdate connSetTagsErr d0).calls =
        (updateDefaultBranchStep connSetTagsErr d0).2
          ++ (updateDescriptionStep connSetTagsErr d0).2
          ++ (RemoteCall.setTagsHelper d0.id d0.tags :: rest)) ∧
      (resourceAwsCodeCommitRepositoryUpdate connSetTagsErr d0).err =
        some ("error updating CodeCommit Repository tags for " ++ d0.id ++ ": "
          ++ errBoom.render) := by
  refine ⟨(tags_reconciled_only_when_not_new connOk
    { d0 with isNewResource := true }).1 rfl, ?_, ?_⟩
  · exact ((tags_reconciled_only_when_not_new connSetTagsErr d0).2 rfl rfl rfl).1
  · exact ((tags_reconciled_only_when_not_new connSetTagsErr d0).2 rfl rfl rfl).2
      errBoom rfl

/-- Claim C7 counterexample: the schema as written has no attribute keyed
"name"; the repository name attribute is keyed "repository_name", so the
claimed attribute list is not the schema's. -/
theorem schema_name_key_counterexample :
    (resourceAwsCodeCommitRepositorySchema.map Prod.fst).contains "name" = false ∧
      (resourceAwsCodeCommitRepositorySchema.map Prod.fst).contains
        "repository_name" = true := by
  decide

/-- Claim C7 (amended): the schema consists exactly of the attributes
repository_name, description, arn, repository_id, clone_url_http,
clone_url_ssh, default_branch and tags; arn, repository_id, clone_url_http
and clone_url_ssh are server-computed (read-only); the description
validation accepts a string iff its length is at most 1000. -/
theorem schema_attributes_amended :
    resourceAwsCodeCommitRepositorySchema.map Prod.fst =
        ["repository_name", "description", "arn", "repository_id",
          "clone_url_http", "clone_url_ssh", "default_branch", "tags"] ∧
      (resourceAwsCodeCommitRepositorySchema.lookup "arn").map
          AttrSchema.computed = some true ∧
      (resourceAwsCodeCommitRepositorySchema.lookup "repository_id").map
          AttrSchema.computed = some true ∧
      (resourceAwsCodeCommitRepositorySchema.lookup "clone_url_http").map
          AttrSchema.computed = some true ∧
      (resourceAwsCodeCommitRepositorySchema.lookup "clone_url_ssh").map
          AttrSchema.computed = some true ∧
      (∀ s : String,
        ((resourceAwsCodeCommitRepositorySchema.lookup "description").elim false
            (fun a => attrAccepts a s)) = true ↔ s.length ≤ 1000) := by
  refine ⟨by decide, by decide, by decide, by decide, by decide, fun s => ?_⟩
  have hd : resourceAwsCodeCommitRepositorySchema.lookup "description" =
      some { type := AttrType.string, optional := true
             validateLenBetween := some (0, 1000) } := by
    decide
  simp [hd, attrAccepts, stringLenBetween, Option.elim, Nat.zero_le]
